import Mathlib

/- Verification of the filter-and-summarize pipeline of the telemarketing
   dashboard (src/app_7.py).

   A pandas DataFrame is embedded as a list of rows paired with their integer
   index: pandas boolean-mask filtering keeps the original index values of the
   surviving rows, while reset_index(drop=True) renumbers them 0,1,2,...
   Both behaviours are visible in the source and are modelled exactly. -/

namespace Telemarketing

/-- The eight categorical attribute columns filtered by the sidebar form. -/
inductive Col
  | job | marital | default | housing | loan | contact | month | day_of_week
  deriving DecidableEq, Repr

/-- A row of the bank dataset: the numeric age column, the eight categorical
attribute columns, and the target column y. -/
structure Record where
  age : Int
  job : String
  marital : String
  default : String
  housing : String
  loan : String
  contact : String
  month : String
  day_of_week : String
  y : String
  deriving DecidableEq, Repr

/-- Value of a record in a given categorical column. -/
def Record.get (r : Record) : Col → String
  | .job => r.job
  | .marital => r.marital
  | .default => r.default
  | .housing => r.housing
  | .loan => r.loan
  | .contact => r.contact
  | .month => r.month
  | .day_of_week => r.day_of_week

/-- A pandas DataFrame over the bank schema: rows paired with their index. -/
abbrev DataFrame := List (Nat × Record)

/-- Embedding of multiselect_filter (src/app_7.py lines 26-30):
if the string all is among the selected values the DataFrame is returned
unchanged; otherwise the rows whose value in the column is a member of the
selection survive and reset_index(drop=True) renumbers them from zero. -/
def multiselect_filter (df : DataFrame) (col : Col) (selecionados : List String) :
    DataFrame :=
  if "all" ∈ selecionados then df
  else ((df.filter fun p => decide (p.2.get col ∈ selecionados)).map Prod.snd).enum

/-- Embedding of the age-range step (src/app_7.py line 111):
bank.query keeps the rows whose age lies in the inclusive range and does not
touch the index. -/
def query_age (df : DataFrame) (lo hi : Int) : DataFrame :=
  df.filter fun p => decide (lo ≤ p.2.age ∧ p.2.age ≤ hi)

/-- The eight per-column selections read from the sidebar form
(src/app_7.py lines 98-105). -/
structure Selecoes where
  jobs_selected : List String
  marital_selected : List String
  default_selected : List String
  housing_selected : List String
  loan_selected : List String
  contact_selected : List String
  month_selected : List String
  day_of_week_selected : List String
  deriving DecidableEq, Repr

/-- The fixed left-to-right order of the categorical pipe stages
(src/app_7.py lines 112-119). -/
def filter_stages (s : Selecoes) : List (Col × List String) :=
  [(Col.job, s.jobs_selected),
   (Col.marital, s.marital_selected),
   (Col.default, s.default_selected),
   (Col.housing, s.housing_selected),
   (Col.loan, s.loan_selected),
   (Col.contact, s.contact_selected),
   (Col.month, s.month_selected),
   (Col.day_of_week, s.day_of_week_selected)]

/-- Left-to-right composition of multiselect_filter stages, as the chain of
.pipe calls does in src/app_7.py lines 112-119. -/
def apply_categorical (df : DataFrame) (ps : List (Col × List String)) : DataFrame :=
  ps.foldl (fun d p => multiselect_filter d p.1 p.2) df

/-- Embedding of the whole filter pipeline (src/app_7.py lines 110-120):
the age-range query followed by the eight categorical filters in the fixed
source order. -/
def apply_filters (df : DataFrame) (lo hi : Int) (s : Selecoes) : DataFrame :=
  apply_categorical (query_age df lo hi) (filter_stages s)

/-- Embedding of the proportion computation (src/app_7.py lines 136-138 and
141-143): value_counts(normalize=True) * 100 followed by sort_index gives,
for each distinct value of the target column in ascending order, its
percentage frequency. Percentages are modelled as exact rationals. -/
def target_perc (df : DataFrame) : List (String × ℚ) :=
  let ys := df.map fun p => p.2.y
  (List.insertionSort (fun a b => a ≤ b) ys.dedup).map
    fun v => (v, 100 * (List.count v ys : ℚ) / ys.length)

/-- Embedding of load_data (src/app_7.py lines 16-21): try pd.read_csv with
semicolon separator, and on any exception fall back to pd.read_excel. The two
pandas parsers are external collaborators, abstracted as fallible functions
returning Except over an arbitrary stream type. -/
def load_data {σ ε : Type} (read_csv read_excel : σ → Except ε DataFrame)
    (file_data : σ) : Except ε DataFrame :=
  match read_csv file_data with
  | .ok df => .ok df
  | .error _ => read_excel file_data

/-- Embedding of the try/except at src/app_7.py lines 140-145: on success the
local bank_target_perc is bound to the computed table; a failure is caught
and emits the st.error message but binds nothing, since the only assignment
to bank_target_perc is the one inside the try and the local has no value
before the block (and none persists across reruns). The fallible pandas
computation is abstracted as an Except value. Output: the binding state of
bank_target_perc and the user-facing messages emitted. -/
def try_except_perc {ε : Type} (compute : Except ε (List (String × ℚ))) :
    Option (List (String × ℚ)) × List String :=
  match compute with
  | .ok p => (some p, [])
  | .error _ => (none, ["Erro no filtro dos dados."])

/-- Reading a Python local: a bound name yields its value, an unbound one
raises NameError. -/
def read_local (n : String) (v : Option (List (String × ℚ))) :
    Except String (List (String × ℚ)) :=
  match v with
  | some p => .ok p
  | none => .error ("NameError: name " ++ n ++ " is not defined")

/-- Embedding of the proportion block of main, src/app_7.py lines 140-166:
the try/except is followed by the unconditional read of bank_target_perc at
line 159, which is outside any handler, so a NameError raised there halts the
run. Output: the messages emitted by st.error, and either the table the rest
of the block uses or the uncaught error that halts the run. -/
def proportion_block {ε : Type} (compute : Except ε (List (String × ℚ))) :
    List String × Except String (List (String × ℚ)) :=
  let r := try_except_perc compute
  (r.2, read_local "bank_target_perc" r.1)

/-- The two DataFrame variables of main (src/app_7.py lines 73-74):
the raw loaded data and the working copy that the filters rebind. -/
structure Session where
  bank_raw : DataFrame
  bank : DataFrame
  deriving DecidableEq, Repr

/-- Embedding of lines 73-74 of src/app_7.py: bank is initialised as a copy of
bank_raw. -/
def load_session (raw : DataFrame) : Session :=
  { bank_raw := raw, bank := raw }

/-- Embedding of lines 110-120 of src/app_7.py at the Session level: the
pipeline result is rebound to bank; bank_raw is not assigned. -/
def run_filters (s : Session) (lo hi : Int) (sel : Selecoes) : Session :=
  { s with bank := apply_filters s.bank lo hi sel }

/-- A DataFrame whose index is contiguous from zero, as after
reset_index(drop=True). -/
def contiguous_index (df : DataFrame) : Prop :=
  df.map Prod.fst = List.range df.length

/-- Sample row used by concrete witnesses. -/
def sampleRec (a : Int) (j : String) (yv : String) : Record :=
  { age := a, job := j, marital := "single", default := "no", housing := "yes",
    loan := "no", contact := "cellular", month := "may", day_of_week := "mon",
    y := yv }

/-- Sample DataFrame used by concrete witnesses. -/
def sampleDF : DataFrame :=
  [(0, sampleRec 25 "admin" "no"), (1, sampleRec 40 "technician" "yes"),
   (2, sampleRec 55 "admin" "no")]

/-- The all-pass selection: every multiselect left at its default value. -/
def allSel : Selecoes :=
  { jobs_selected := ["all"], marital_selected := ["all"],
    default_selected := ["all"], housing_selected := ["all"],
    loan_selected := ["all"], contact_selected := ["all"],
    month_selected := ["all"], day_of_week_selected := ["all"] }

/-- Helper: the all-sentinel branch of multiselect_filter. -/
theorem mf_all_eq (df : DataFrame) (col : Col) (S : List String)
    (h : "all" ∈ S) : multiselect_filter df col S = df := by
  simp [multiselect_filter, h]

/-- Helper: the active branch of multiselect_filter, written over the row list
with the index renumbering made explicit. -/
theorem mf_active_eq (df : DataFrame) (col : Col) (V : List String)
    (h : "all" ∉ V) :
    multiselect_filter df col V
      = ((df.map Prod.snd).filter fun r => decide (r.get col ∈ V)).enum := by
  simp only [multiselect_filter, if_neg h, List.filter_map]
  rfl

/-- Claim C3: if the selection contains the sentinel all, multiselect_filter
returns the DataFrame unchanged, row for row and in the same order. -/
theorem multiselect_filter_all_mem (df : DataFrame) (col : Col)
    (S : List String) (h : "all" ∈ S) :
    multiselect_filter df col S = df := by
  simp [multiselect_filter, h]

/-- Witness for claim C3 at a concrete DataFrame and selection. -/
theorem multiselect_filter_all_mem_witness :
    multiselect_filter sampleDF Col.job ["admin", "all"] = sampleDF :=
  multiselect_filter_all_mem sampleDF Col.job ["admin", "all"] (by decide)

/-- Claim C9: filtering with the empty selection set, which does not contain
the sentinel all, yields the empty DataFrame, an ordinary value rather than
an error. -/
theorem multiselect_filter_empty (df : DataFrame) (col : Col) :
    multiselect_filter df col [] = [] := by
  simp [multiselect_filter]

/-- Claim C1: for a selection set V without the sentinel all, the rows of the
filtered DataFrame are exactly the rows of the input whose value in the
column is a member of V, in the same relative order. -/
theorem multiselect_filter_not_all (df : DataFrame) (col : Col)
    (V : List String) (h : "all" ∉ V) :
    (multiselect_filter df col V).map Prod.snd
      = (df.map Prod.snd).filter fun r => decide (r.get col ∈ V) := by
  rw [mf_active_eq df col V h, List.enum_map_snd]

/-- Witness for claim C1 at a concrete DataFrame and selection. -/
theorem multiselect_filter_not_all_witness :
    "all" ∉ ["admin"] ∧
      (multiselect_filter sampleDF Col.job ["admin"]).map Prod.snd
        = (sampleDF.map Prod.snd).filter fun r => decide (r.get Col.job ∈ ["admin"]) :=
  ⟨by decide, multiselect_filter_not_all sampleDF Col.job ["admin"] (by decide)⟩

/-- Claim C2: for bounds lo less-or-equal hi, the age-range step keeps exactly
the rows whose age lies in the inclusive range: a row is in the result iff it
is a row of the input satisfying both bounds. -/
theorem query_age_mem (df : DataFrame) (lo hi : Int) (h : lo ≤ hi)
    (p : Nat × Record) :
    p ∈ query_age df lo hi ↔ p ∈ df ∧ (lo ≤ p.2.age ∧ p.2.age ≤ hi) := by
  simp [query_age, List.mem_filter]

/-- Witness for claim C2 at a concrete DataFrame, range and row. -/
theorem query_age_mem_witness :
    (30 : Int) ≤ 50 ∧
      ((1, sampleRec 40 "technician" "yes") ∈ query_age sampleDF 30 50 ↔
        (1, sampleRec 40 "technician" "yes") ∈ sampleDF ∧
          ((30 : Int) ≤ (sampleRec 40 "technician" "yes").age ∧
            (sampleRec 40 "technician" "yes").age ≤ 50)) :=
  ⟨by decide, query_age_mem sampleDF 30 50 (by decide) (1, sampleRec 40 "technician" "yes")⟩

/-- Claim C6: load_data attempts the delimited-text parse first and returns
its result on success; on any parse error it returns whatever the spreadsheet
parse yields; when both parses fail, the spreadsheet parse error propagates
unchanged and no other error kind is produced. -/
theorem load_data_fallback {σ ε : Type} (read_csv read_excel : σ → Except ε DataFrame)
    (s : σ) :
    (∀ df, read_csv s = .ok df → load_data read_csv read_excel s = .ok df) ∧
    (∀ e, read_csv s = .error e → load_data read_csv read_excel s = read_excel s) ∧
    (∀ e e2, read_csv s = .error e → read_excel s = .error e2 →
      load_data read_csv read_excel s = .error e2) := by
  refine ⟨fun df h => ?_, fun e h => ?_, fun e e2 h h2 => ?_⟩ <;>
    simp [load_data, h]
  exact h2

/-- Concrete delimited-text parse stub used by the load_data witness: succeeds
on the stream true, fails on the stream false. -/
def csv_probe (s : Bool) : Except String DataFrame :=
  if s then .ok sampleDF else .error "csv failure"

/-- Concrete spreadsheet parse stub used by the load_data witness: always
fails. -/
def excel_probe (_ : Bool) : Except String DataFrame :=
  .error "excel failure"

/-- Witness for claim C6: with both concrete parses failing, load_data
propagates the spreadsheet parse error. -/
theorem load_data_fallback_witness :
    load_data csv_probe excel_probe false = .error "excel failure" :=
  (load_data_fallback csv_probe excel_probe false).2.2 "csv failure" "excel failure" rfl rfl

/-- Counterexample to claim C7 as stated: at a concrete failing computation
the failure is indeed caught and the st.error message emitted, but there is
no prior proportion state to fall back on: bank_target_perc stays unbound,
its unconditional use at line 159 raises NameError, and the run halts instead
of continuing with stale proportions. -/
theorem proportion_block_halt_cex :
    proportion_block (Except.error "empty filtered frame")
      = (["Erro no filtro dos dados."],
          Except.error "NameError: name bank_target_perc is not defined") :=
  rfl

/-- Claim C7, corrected: whenever the filtered-proportion computation fails,
the exception is caught and exactly the st.error message is emitted, but
bank_target_perc, assigned only inside the try, remains unbound, so the
unconditional read of it at line 159 raises NameError and the run halts; no
stale proportion data is carried forward. -/
theorem proportion_block_error {ε : Type} (e : ε)
    (compute : Except ε (List (String × ℚ))) (h : compute = .error e) :
    proportion_block compute
      = (["Erro no filtro dos dados."],
          Except.error "NameError: name bank_target_perc is not defined") := by
  subst h
  rfl

/-- Witness for the corrected claim C7 at a concrete failing computation. -/
theorem proportion_block_error_witness :
    proportion_block (Except.error "empty")
      = (["Erro no filtro dos dados."],
          Except.error "NameError: name bank_target_perc is not defined") :=
  proportion_block_error "empty" (Except.error "empty") rfl

/-- Claim C10: running the filter pipeline never modifies the raw loaded
DataFrame: after filtering, bank_raw is still the loader output, and the
raw-data proportion table computed from it is the one of the loader output. -/
theorem run_filters_frame (raw : DataFrame) (lo hi : Int) (sel : Selecoes) :
    (run_filters (load_session raw) lo hi sel).bank_raw = raw ∧
    target_perc (run_filters (load_session raw) lo hi sel).bank_raw
      = target_perc raw :=
  ⟨rfl, rfl⟩

/-- Helper: each categorical stage keeps the surviving rows in their input
order, so the row list of its output is a sublist of its input row list. -/
theorem mf_snd_sublist (df : DataFrame) (c : Col) (sel : List String) :
    ((multiselect_filter df c sel).map Prod.snd).Sublist (df.map Prod.snd) := by
  by_cases h : "all" ∈ sel
  · rw [mf_all_eq df c sel h]
  · rw [mf_active_eq df c sel h, List.enum_map_snd]
    exact List.filter_sublist _

/-- Helper: an active categorical stage leaves a contiguous zero-based index,
from its reset_index(drop=True). -/
theorem mf_contiguous_active (df : DataFrame) (c : Col) (sel : List String)
    (h : "all" ∉ sel) : contiguous_index (multiselect_filter df c sel) := by
  rw [mf_active_eq df c sel h]
  simp [contiguous_index, List.enum_map_fst, List.enum_length]

/-- Helper: every categorical stage preserves contiguity of the index. -/
theorem mf_contiguous (df : DataFrame) (c : Col) (sel : List String)
    (h : contiguous_index df) :
    contiguous_index (multiselect_filter df c sel) := by
  by_cases hall : "all" ∈ sel
  · rwa [mf_all_eq df c sel hall]
  · exact mf_contiguous_active df c sel hall

/-- Helper: the composed categorical stages keep the surviving rows in input
order. -/
theorem apply_categorical_snd_sublist (ps : List (Col × List String)) :
    ∀ df : DataFrame,
      ((apply_categorical df ps).map Prod.snd).Sublist (df.map Prod.snd) := by
  induction ps with
  | nil => intro df; exact List.Sublist.refl _
  | cons p ps ih =>
    intro df
    exact (ih (multiselect_filter df p.1 p.2)).trans (mf_snd_sublist df p.1 p.2)

/-- Helper: the composed categorical stages preserve contiguity of the
index. -/
theorem apply_categorical_contiguous (ps : List (Col × List String)) :
    ∀ df : DataFrame, contiguous_index df →
      contiguous_index (apply_categorical df ps) := by
  induction ps with
  | nil => intro df h; exact h
  | cons p ps ih =>
    intro df h
    exact ih (multiselect_filter df p.1 p.2) (mf_contiguous df p.1 p.2 h)

/-- Helper: if some stage of the chain is active, the final index is
contiguous from zero, whatever the input index was. -/
theorem apply_categorical_contiguous_of_active (ps : List (Col × List String)) :
    ∀ df : DataFrame, (∃ p ∈ ps, "all" ∉ p.2) →
      contiguous_index (apply_categorical df ps) := by
  induction ps with
  | nil =>
    intro df h
    obtain ⟨p, hp, _⟩ := h
    exact absurd hp (List.not_mem_nil p)
  | cons q ps ih =>
    intro df h
    by_cases hq : "all" ∈ q.2
    · obtain ⟨p, hp, hpa⟩ := h
      rcases List.mem_cons.mp hp with hpq | hps
      · exact absurd hq (hpq ▸ hpa)
      · exact ih (multiselect_filter df q.1 q.2) ⟨p, hps, hpa⟩
    · exact apply_categorical_contiguous ps (multiselect_filter df q.1 q.2)
        (mf_contiguous_active df q.1 q.2 hq)

/-- Claim C5, corrected: the full pipeline preserves the relative row order
of the surviving records for every Filter Selection, and whenever at least
one of the eight categorical selections does not contain the sentinel all,
the index of the result is renumbered contiguously from zero. -/
theorem apply_filters_order_and_index (df : DataFrame) (lo hi : Int)
    (s : Selecoes) :
    ((apply_filters df lo hi s).map Prod.snd).Sublist (df.map Prod.snd) ∧
      (("all" ∉ s.jobs_selected ∨ "all" ∉ s.marital_selected ∨
        "all" ∉ s.default_selected ∨ "all" ∉ s.housing_selected ∨
        "all" ∉ s.loan_selected ∨ "all" ∉ s.contact_selected ∨
        "all" ∉ s.month_selected ∨ "all" ∉ s.day_of_week_selected) →
        contiguous_index (apply_filters df lo hi s)) := by
  constructor
  · exact (apply_categorical_snd_sublist (filter_stages s) (query_age df lo hi)).trans
      (List.Sublist.map Prod.snd (List.filter_sublist df))
  · intro h
    apply apply_categorical_contiguous_of_active (filter_stages s) (query_age df lo hi)
    rcases h with h | h | h | h | h | h | h | h
    · exact ⟨(Col.job, s.jobs_selected), by simp [filter_stages], h⟩
    · exact ⟨(Col.marital, s.marital_selected), by simp [filter_stages], h⟩
    · exact ⟨(Col.default, s.default_selected), by simp [filter_stages], h⟩
    · exact ⟨(Col.housing, s.housing_selected), by simp [filter_stages], h⟩
    · exact ⟨(Col.loan, s.loan_selected), by simp [filter_stages], h⟩
    · exact ⟨(Col.contact, s.contact_selected), by simp [filter_stages], h⟩
    · exact ⟨(Col.month, s.month_selected), by simp [filter_stages], h⟩
    · exact ⟨(Col.day_of_week, s.day_of_week_selected), by simp [filter_stages], h⟩

/-- A selection with one active categorical filter, used by witnesses. -/
def activeSel : Selecoes :=
  { allSel with jobs_selected := ["admin"] }

/-- Witness for the corrected claim C5 at a concrete DataFrame and
selection. -/
theorem apply_filters_order_and_index_witness :
    ((apply_filters sampleDF 0 100 activeSel).map Prod.snd).Sublist
        (sampleDF.map Prod.snd) ∧
      contiguous_index (apply_filters sampleDF 0 100 activeSel) :=
  ⟨(apply_filters_order_and_index sampleDF 0 100 activeSel).1,
    (apply_filters_order_and_index sampleDF 0 100 activeSel).2 (Or.inl (by decide))⟩

/-- Counterexample to claim C5 as stated: with every categorical selection
left at all and an age range that drops the first row, the pipeline result
keeps the original pandas index values, which are not contiguous from
zero. -/
theorem apply_filters_index_not_contiguous :
    ¬ contiguous_index (apply_filters sampleDF 30 60 allSel) := by
  unfold contiguous_index
  decide

/-- Helper: two categorical stages commute: each is conjunctive on the row
list and the last active stage determines the renumbered index either way. -/
theorem mf_comm (df : DataFrame) (c1 c2 : Col) (s1 s2 : List String) :
    multiselect_filter (multiselect_filter df c1 s1) c2 s2
      = multiselect_filter (multiselect_filter df c2 s2) c1 s1 := by
  by_cases h1 : "all" ∈ s1 <;> by_cases h2 : "all" ∈ s2
  · rw [mf_all_eq df c1 s1 h1, mf_all_eq df c2 s2 h2, mf_all_eq df c1 s1 h1]
  · rw [mf_all_eq df c1 s1 h1,
      mf_all_eq (multiselect_filter df c2 s2) c1 s1 h1]
  · rw [mf_all_eq df c2 s2 h2,
      mf_all_eq (multiselect_filter df c1 s1) c2 s2 h2]
  · rw [mf_active_eq df c1 s1 h1, mf_active_eq df c2 s2 h2,
      mf_active_eq _ c2 s2 h2, mf_active_eq _ c1 s1 h1,
      List.enum_map_snd, List.enum_map_snd, List.filter_comm]

/-- Claim C8: applying the categorical stages in any order of columns yields
the same filtered DataFrame as the fixed left-to-right composition job,
marital, default, housing, loan, contact, month, day_of_week used by the
implementation. -/
theorem apply_categorical_perm_eq (df : DataFrame) (lo hi : Int) (s : Selecoes)
    (qs : List (Col × List String)) (h : qs.Perm (filter_stages s)) :
    apply_categorical (query_age df lo hi) qs = apply_filters df lo hi s := by
  haveI : RightCommutative
      (fun (d : DataFrame) (p : Col × List String) =>
        multiselect_filter d p.1 p.2) :=
    ⟨fun d p q => mf_comm d p.1 q.1 p.2 q.2⟩
  exact h.foldl_eq (query_age df lo hi)

/-- Witness for claim C8: the eight stages applied in reversed column order
agree with the fixed composition at a concrete DataFrame and selection. -/
theorem apply_categorical_perm_eq_witness :
    apply_categorical (query_age sampleDF 0 100) (filter_stages activeSel).reverse
      = apply_filters sampleDF 0 100 activeSel :=
  apply_categorical_perm_eq sampleDF 0 100 activeSel
    (filter_stages activeSel).reverse (by decide)

/-- Helper: the keys of the proportion table are the sorted distinct target
values. -/
theorem target_perc_keys (df : DataFrame) :
    (target_perc df).map Prod.fst
      = List.insertionSort (fun a b => a ≤ b) (df.map fun p => p.2.y).dedup := by
  simp only [target_perc, List.map_map]
  exact List.map_id'' (fun v => rfl) _

/-- Helper: the values of the proportion table, written over the sorted
distinct target values. -/
theorem target_perc_vals (df : DataFrame) :
    (target_perc df).map Prod.snd
      = (List.insertionSort (fun a b => a ≤ b) (df.map fun p => p.2.y).dedup).map
          fun v => 100 * (List.count v (df.map fun p => p.2.y) : ℚ)
            / (df.map fun p => p.2.y).length := by
  simp [target_perc]

/-- Helper: a percentage entry lies between 0 and 100 when the column is
non-empty. -/
theorem perc_bounds (ys : List String) (h : ys ≠ []) (v : String) :
    0 ≤ 100 * (List.count v ys : ℚ) / ys.length ∧
      100 * (List.count v ys : ℚ) / ys.length ≤ 100 := by
  have hl : 0 < (ys.length : ℚ) :=
    Nat.cast_pos.mpr (List.length_pos.mpr h)
  constructor
  · positivity
  · rw [div_le_iff₀ hl]
    have hc : (List.count v ys : ℚ) ≤ (ys.length : ℚ) :=
      Nat.cast_le.mpr (List.count_le_length v ys)
    nlinarith

/-- Helper: the percentages over the sorted distinct values of a non-empty
column sum to exactly 100. -/
theorem sum_perc (ys : List String) (h : ys ≠ []) :
    ((List.insertionSort (fun a b => a ≤ b) ys.dedup).map
      fun v => 100 * (List.count v ys : ℚ) / ys.length).sum = 100 := by
  have h1 : ((List.insertionSort (fun a b => a ≤ b) ys.dedup).map
        fun v => 100 * (List.count v ys : ℚ) / ys.length).sum
      = (ys.dedup.map fun v => 100 * (List.count v ys : ℚ) / ys.length).sum :=
    ((List.perm_insertionSort _ _).map _).sum_eq
  have h2 : (fun v => 100 * (List.count v ys : ℚ) / ys.length)
      = fun v => (List.count v ys : ℚ) * (100 / ys.length) := by
    funext v
    ring
  have h3 : (ys.dedup.map fun v => (List.count v ys : ℚ)).sum
      = ((ys.dedup.map fun v => List.count v ys).sum : ℚ) := by
    rw [Nat.cast_list_sum, List.map_map]
    rfl
  have hn : (ys.length : ℚ) ≠ 0 :=
    Nat.cast_ne_zero.mpr (fun h0 => h (List.length_eq_zero.mp h0))
  rw [h1, h2, List.sum_map_mul_right, h3, List.sum_map_count_dedup_eq_length]
  field_simp

/-- Claim C4: for a non-empty DataFrame the proportion table has one entry
per distinct target value (no duplicate keys, keys exactly the values seen in
the column y), every percentage lies in the closed interval from 0 to 100,
the entries are sorted ascending by target value, and the percentages sum to
exactly 100 in rational arithmetic. -/
theorem target_perc_spec (df : DataFrame) (h : df ≠ []) :
    ((target_perc df).map Prod.fst).Nodup ∧
    (∀ v, v ∈ (target_perc df).map Prod.fst ↔ v ∈ df.map fun p => p.2.y) ∧
    (∀ q ∈ (target_perc df).map Prod.snd, 0 ≤ q ∧ q ≤ 100) ∧
    List.Sorted (fun a b : String => a ≤ b) ((target_perc df).map Prod.fst) ∧
    ((target_perc df).map Prod.snd).sum = 100 := by
  have hys : (df.map fun p => p.2.y) ≠ [] := by
    simpa using h
  refine ⟨?_, ?_, ?_, ?_, ?_⟩
  · rw [target_perc_keys]
    exact ((List.perm_insertionSort _ _).nodup_iff).mpr (List.nodup_dedup _)
  · intro v
    rw [target_perc_keys, (List.perm_insertionSort _ _).mem_iff, List.mem_dedup]
  · intro q hq
    rw [target_perc_vals] at hq
    obtain ⟨v, _, rfl⟩ := List.mem_map.mp hq
    exact perc_bounds _ hys v
  · rw [target_perc_keys]
    exact List.sorted_insertionSort _ _
  · rw [target_perc_vals]
    exact sum_perc _ hys

/-- Witness for claim C4 at a concrete non-empty DataFrame. -/
theorem target_perc_spec_witness :
    sampleDF ≠ [] ∧
      (((target_perc sampleDF).map Prod.fst).Nodup ∧
      (∀ v, v ∈ (target_perc sampleDF).map Prod.fst ↔
        v ∈ sampleDF.map fun p => p.2.y) ∧
      (∀ q ∈ (target_perc sampleDF).map Prod.snd, 0 ≤ q ∧ q ≤ 100) ∧
      List.Sorted (fun a b : String => a ≤ b)
        ((target_perc sampleDF).map Prod.fst) ∧
      ((target_perc sampleDF).map Prod.snd).sum = 100) :=
  ⟨by decide, target_perc_spec sampleDF (by decide)⟩

end Telemarketing
